import Mathlib

/-!
Verification of the phasepy equilibrium core against its specification.

The repository ships the equilibrium engine behind example notebooks
(`src/examples/*.ipynb`, `src/unnamed/part_000`).  The notebooks document the
algorithms (ASS / Halley / Gibbs-minimization for `flash`, ASS / quasi-Newton /
full-K Newton system for bubble and dew points, the Gupta multiphase
Rachford-Rice system for `lle`) and record the exact outputs of concrete runs.
We embed the recorded runs as exact rational data, model the control logic the
notebooks and the spec describe, and settle the specification's claims against
them.
-/

namespace Phasepy

/-- Result record of the two-phase `flash` routine, with the fields in the
order printed by `src/examples/4. Two phase flash (TP).ipynb`:
T, P, beta, error, iter, X, v1, state1, Y, v2, state2. -/
structure FlashResult where
  T : ℚ
  P : ℚ
  beta : ℚ
  error : ℚ
  iter : ℕ
  X : List ℚ
  v1 : ℚ
  state1 : String
  Y : List ℚ
  v2 : ℚ
  state2 : String

/-- Result record of the bubble- and dew-point routines, with the fields in
the order printed by `src/examples/5. Bubble Point calculation.ipynb` and
`src/unnamed/part_000` (dew point): T, P, error, iter, X, v1, state1, Y, v2,
state2 — there is no `beta` field. -/
structure BubbleDewResult where
  T : ℚ
  P : ℚ
  error : ℚ
  iter : ℕ
  X : List ℚ
  v1 : ℚ
  state1 : String
  Y : List ℚ
  v2 : ℚ
  state2 : String

/-- Field names of the `flash` result object, in printed order
(`src/examples/4. Two phase flash (TP).ipynb`, output of cell 5). -/
def flashResultFields : List String :=
  ["T", "P", "beta", "error", "iter", "X", "v1", "state1", "Y", "v2", "state2"]

/-- Field names of the bubble/dew-point result objects, in printed order
(`src/examples/5. Bubble Point calculation.ipynb` and `src/unnamed/part_000`). -/
def bubbleDewResultFields : List String :=
  ["T", "P", "error", "iter", "X", "v1", "state1", "Y", "v2", "state2"]

/-- A recorded `flash` run: the feed composition passed in and the result
returned. -/
structure FlashRun where
  z : List ℚ
  result : FlashResult

/-- Recorded output of `flash(x0, y0, 'LV', Z, T=350, P=0.8, eos)` for the
ethanol–water mixture in `src/examples/4. Two phase flash (TP).ipynb`,
started from x0=[0.23512692, 0.76487308], y0=[0.5, 0.5], Z=[0.4, 0.6]. -/
def flash_vle_ethanol_water : FlashResult :=
  { T := 350.0
    P := 0.8
    beta := 0.46657039791747923
    error := 9.45706631675112e-9
    iter := 7
    X := [0.23951597, 0.76048403]
    v1 := 32.50887949066499
    state1 := "L"
    Y := [0.58348128, 0.41651872]
    v2 := 35869.13850298779
    state2 := "V" }

/-- Recorded output of `flash(x0, w0, 'LL', Z, T=320, P=1.01, eos)` for the
water–mtbe mixture in `src/examples/4. Two phase flash (TP).ipynb`,
started from x0=[0.01, 0.99], w0=[0.99, 0.01], Z=[0.5, 0.5]. -/
def flash_lle_water_mtbe : FlashResult :=
  { T := 320.0
    P := 1.01
    beta := 0.46991089151358084
    error := 2.9082881326185033e-9
    iter := 7
    X := [0.05876434, 0.94123566]
    v1 := 112.09263402948598
    state1 := "L"
    Y := [0.99774164, 0.00225836]
    v2 := 21.756817287953805
    state2 := "L" }

/-- The vapor–liquid `flash` run of
`src/examples/4. Two phase flash (TP).ipynb` with its feed. -/
def flashRunVLE : FlashRun := ⟨[0.4, 0.6], flash_vle_ethanol_water⟩

/-- The liquid–liquid `flash` run of
`src/examples/4. Two phase flash (TP).ipynb` with its feed. -/
def flashRunLLE : FlashRun := ⟨[0.5, 0.5], flash_lle_water_mtbe⟩

/-- The two `flash` runs recorded in
`src/examples/4. Two phase flash (TP).ipynb`. -/
def recordedFlashRuns : List FlashRun := [flashRunVLE, flashRunLLE]

/-- Recorded output of `bubblePy(y0, P0, x=[0.5,0.5], T=350, eos)` for
ethanol–water in `src/examples/5. Bubble Point calculation.ipynb`. -/
def bubblePy_ethanol_water : BubbleDewResult :=
  { T := 350.0, P := 0.8969829229313796, error := 1.1465273175303992e-12
    iter := 5, X := [0.5, 0.5], v1 := 44.1406748020394, state1 := "Liquid"
    Y := [0.68233401, 0.31766599], v2 := 31901.550136613874, state2 := "Vapor" }

/-- Recorded output of `bubbleTy(y0, T0, x=[0.6,0.4], P=3.0, eos)` for
ethanol–water in `src/examples/5. Bubble Point calculation.ipynb`. -/
def bubbleTy_ethanol_water : BubbleDewResult :=
  { T := 382.84576305426106, P := 3.0, error := 2.3354718162123485e-10
    iter := 5, X := [0.6, 0.4], v1 := 51.11127949434453, state1 := "Liquid"
    Y := [0.7027532, 0.2972468], v2 := 10143.393200684473, state2 := "Vapor" }

/-- Recorded output of `bubblePy(y0, P0, x=[0.2,0.5,0.3], T=350, eos)` for the
mtbe–ethanol–butanol mixture in
`src/examples/5. Bubble Point calculation.ipynb`. -/
def bubblePy_ternary : BubbleDewResult :=
  { T := 350.0, P := 1.279357776059529, error := 3.520168601056639e-10
    iter := 5, X := [0.2, 0.5, 0.3], v1 := 87.34523143118855, state1 := "Liquid"
    Y := [0.5295944, 0.41590612, 0.05449948], v2 := 21941.4177971427
    state2 := "Vapor" }

/-- Recorded output of `bubbleTy(y0, T0, x=[0.2,0.5,0.3], P=2.0, eos)` for the
mtbe–ethanol–butanol mixture in
`src/examples/5. Bubble Point calculation.ipynb`. -/
def bubbleTy_ternary : BubbleDewResult :=
  { T := 364.21636396579174, P := 2.0, error := 1.6830981053315957e-13
    iter := 5, X := [0.2, 0.5, 0.3], v1 := 89.37008110948325, state1 := "Liquid"
    Y := [0.48385218, 0.45234195, 0.06380586], v2 := 14396.135655179278
    state2 := "Vapor" }

/-- Recorded output of `dewPx(x0, P0, y=[0.5,0.5], T=350, eos)` for the
mtbe–ethanol mixture in `src/unnamed/part_000` (dew-point notebook). -/
def dewPx_mtbe_ethanol : BubbleDewResult :=
  { T := 350.0, P := 1.5445973713540904, error := 1.0031153685474692e-10
    iter := 6, X := [0.23512692, 0.76487308], v1 := 79.85925570828107
    state1 := "Liquid", Y := [0.5, 0.5], v2 := 18058.942068043507
    state2 := "Vapor" }

/-- Recorded output of `dewTx(x0, T0, y=[0.4,0.6], P=1.0, eos)` for the
mtbe–ethanol mixture in `src/unnamed/part_000` (dew-point notebook). -/
def dewTx_mtbe_ethanol : BubbleDewResult :=
  { T := 341.7556832715943, P := 1.0, error := 1.4876988529977208e-14
    iter := 5, X := [0.1357666, 0.8642334], v1 := 73.24673375255578
    state1 := "Liquid", Y := [0.4, 0.6], v2 := 27627.203998257115
    state2 := "Vapor" }

/-- Recorded output of `dewPx(x0, P0, y=[0.2,0.5,0.3], T=350, eos)` for the
mtbe–ethanol–butanol mixture in `src/unnamed/part_000` (dew-point notebook). -/
def dewPx_ternary : BubbleDewResult :=
  { T := 350.0, P := 4.860774612727455, error := 1.8918200339612667e-12
    iter := 5, X := [0.10835525, 0.35502455, 0.5366202]
    v1 := 115.51060023270989, state1 := "Liquid", Y := [0.2, 0.5, 0.3]
    v2 := 5398.969154683442, state2 := "Vapor" }

/-- Recorded output of `dewTx(x0, T0, y=[0.2,0.5,0.3], P=2.0, eos)` for the
mtbe–ethanol–butanol mixture in `src/unnamed/part_000` (dew-point notebook). -/
def dewTx_ternary : BubbleDewResult :=
  { T := 312.2308834003832, P := 2.0, error := 2.5730528818679525e-12
    iter := 4, X := [0.09352795, 0.33039408, 0.57607797]
    v1 := 108.73163446223349, state1 := "Liquid", Y := [0.2, 0.5, 0.3]
    v2 := 12312.022678676827, state2 := "Vapor" }

/-- The four bubble-point runs recorded in
`src/examples/5. Bubble Point calculation.ipynb`. -/
def recordedBubbleResults : List BubbleDewResult :=
  [bubblePy_ethanol_water, bubbleTy_ethanol_water, bubblePy_ternary,
   bubbleTy_ternary]

/-- The four dew-point runs recorded in `src/unnamed/part_000`. -/
def recordedDewResults : List BubbleDewResult :=
  [dewPx_mtbe_ethanol, dewTx_mtbe_ethanol, dewPx_ternary, dewTx_ternary]

/-- Recorded output of `tpd_min(w, z, T=320, P=1.01, eos, 'L', 'L')` for
water–mtbe with w=[0.01, 0.99], z=[0.5, 0.5] in
`src/examples/3. Phase stability test (tpd).ipynb`: the converged trial
liquid composition and its tpd value. -/
def tpd_min_L_water_mtbe : List ℚ × ℚ :=
  ([0.11779034, 0.88220966], -0.08595426652312477)

/-- Recorded output of `tpd_min(w, z, T=320, P=1.01, eos, 'V', 'L')` for
water–mtbe in `src/examples/3. Phase stability test (tpd).ipynb`. -/
def tpd_min_V_water_mtbe : List ℚ × ℚ :=
  ([0.17422237, 0.82577763], 0.07570203456338642)

/-- Recorded output of `tpd_minimas(2, z, T=320, P=1.01, eos, 'L', 'L')` for
water–mtbe in `src/examples/3. Phase stability test (tpd).ipynb`: the list of
liquid minima compositions and their tpd values. -/
def tpd_minimas_L_water_mtbe : List (List ℚ) × List ℚ :=
  ([[0.99868736, 0.00131264], [0.11778925, 0.88221075]],
   [-0.73704754, -0.08595427])

/-- Recorded output of `tpd_minimas(2, z, T=320, P=1.01, eos, 'V', 'L')` for
water–mtbe in `src/examples/3. Phase stability test (tpd).ipynb`: both
perturbed starts reconverged to the same vapor minimum. -/
def tpd_minimas_V_water_mtbe : List (List ℚ) × List ℚ :=
  ([[0.17422234, 0.82577766], [0.17422234, 0.82577766]],
   [0.07570203, 0.07570203])

/-- Recorded output of `lle_init(z, T=320, P=1.01, eos)` for water–mtbe in
`src/examples/3. Phase stability test (tpd).ipynb`: the pair of liquid
compositions proposed as liquid–liquid initial guesses. -/
def lle_init_water_mtbe : List ℚ × List ℚ :=
  ([0.99868736, 0.00131264], [0.11778925, 0.88221075])

/-- Recorded output of the same `lle_init(z, T=320, P=1.01, eos)` call made
independently in `src/examples/7. Liquid-Liquid Equilibria.ipynb` with the
same Peng-Robinson/MHV-UNIFAC model. -/
def lle_init_water_mtbe_run2 : List ℚ × List ℚ :=
  ([0.99868736, 0.00131264], [0.11778925, 0.88221075])

/-- Result record of the multiphase `lle` routine, with the fields printed by
`src/examples/7. Liquid-Liquid Equilibria.ipynb`: T, P, error_outer,
error_inner, iter, beta (one entry per phase), tetha (one entry per
non-reference phase), X (one row per phase), v, states. -/
structure MultiFlashResult where
  T : ℚ
  P : ℚ
  error_outer : ℚ
  error_inner : ℚ
  iter : ℕ
  beta : List ℚ
  tetha : List ℚ
  X : List (List ℚ)
  v : List (Option ℚ)
  states : List String

/-- Recorded output of `lle(x0, w0, Z=[0.5,0.5], T=320, P=1.01, eos)` for
water–mtbe in `src/examples/7. Liquid-Liquid Equilibria.ipynb`. -/
def lle_water_mtbe : MultiFlashResult :=
  { T := 320.0
    P := 1.01
    error_outer := 2.9035040569607052e-9
    error_inner := 1.0073726451407202e-10
    iter := 7
    beta := [0.53009228, 0.46990772]
    tetha := [0]
    X := [[0.05876935, 0.94123065], [0.99774233, 0.00225767]]
    v := [none, none]
    states := ["L", "L"] }

/-- A stability-then-flash scenario recorded in the notebooks: a reference
composition `z` at (`T`, `P`), the minimized tpd value of the best liquid
trial composition `w`, and the phase fraction to which the corresponding
two-phase flash converged.  Modelled from the spec: the `tpd_min` and `flash`
implementations are absent from `src/`, so the spec's tpd sign law is checked
on the behavior recorded in
`src/examples/3. Phase stability test (tpd).ipynb` (tpd) and
`src/examples/4. Two phase flash (TP).ipynb` (the water–mtbe 'LL' flash). -/
structure StabilityFlashScenario where
  T : ℚ
  P : ℚ
  z : List ℚ
  w : List ℚ
  tpdVal : ℚ
  flashBeta : ℚ

/-- The water–mtbe scenario at T=320, P=1.01: `tpd_min` found the liquid
trial phase [0.11779034, 0.88220966] with tpd = −0.0859… < 0, and the
liquid–liquid `flash` at the same conditions converged to β = 0.4699…. -/
def lleScenarioWaterMtbe : StabilityFlashScenario :=
  { T := 320.0, P := 1.01, z := [0.5, 0.5], w := [0.11779034, 0.88220966]
    tpdVal := -0.08595426652312477, flashBeta := 0.46991089151358084 }

/-- The stability-then-flash scenarios recorded in the notebooks. -/
def lleStabilityScenarios : List StabilityFlashScenario := [lleScenarioWaterMtbe]

/-- The solver modes of the equilibrium engines. -/
inductive FlashMethod where
  | ass
  | gibbsMin
  | newtonFullK
  | done
deriving DecidableEq

/-- Modelled from the spec: the mode switch of the two-phase flash engine
(the `flash` implementation is absent from `src/`).  Per
`src/examples/4. Two phase flash (TP).ipynb`, the number of cycles of ASS is
limited to `nacc` cycles and if no solution is reached the algorithm changes
to a second-order procedure based on Gibbs free energy minimization. -/
def flashNextMethod (err tol : ℚ) (it nacc : ℕ) : FlashMethod :=
  if err < tol then .done
  else if nacc ≤ it then .gibbsMin
  else .ass

/-- Modelled from the spec: the mode switch of the bubble/dew-point engines
(the `bubblePy`/`bubbleTy`/`dewPx`/`dewTx` implementations are absent from
`src/`).  Per `src/examples/5. Bubble Point calculation.ipynb` and
`src/unnamed/part_000`, ASS updates compositions in an inner loop with a
quasi-Newton outer update of P or T, and on slow convergence the algorithm
solves the (c+1)-dimensional system in ln K instead. -/
def bubbleDewNextMethod (err tol : ℚ) (it nacc : ℕ) : FlashMethod :=
  if err < tol then .done
  else if nacc ≤ it then .newtonFullK
  else .ass

/-- Modelled from the spec: the residuals of the (c+1)-dimensional system the
bubble/dew-point engines solve on slow convergence
(`src/examples/5. Bubble Point calculation.ipynb`, `src/unnamed/part_000`):
f_i = ln K_i + ln φ̂ᵥ_i(y,T,P) − ln φ̂ₗ_i(x,T,P) for i = 1..c, and
f_{c+1} = Σ_i (y_i − x_i). -/
def fullKResidual (lnK lnphiV lnphiL x y : List ℚ) : List ℚ :=
  List.zipWith (· - ·) (List.zipWith (· + ·) lnK lnphiV) lnphiL ++
    [y.sum - x.sum]

/-- The record every equilibrium outer loop returns: the final residual and
the number of outer iterations spent. -/
structure LoopOutcome where
  error : ℚ
  iter : ℕ

/-- Modelled from the spec: the outer successive-substitution loop shared by
the equilibrium operations (implementations absent from `src/`).  It iterates
a residual-update step until the residual drops below `tol` or the remaining
iteration budget runs out, and always returns a `LoopOutcome` carrying the
final residual and iteration count — non-convergence is reported through
those fields, never raised. -/
def assOuterLoop (step : ℚ → ℚ) (tol : ℚ) : ℕ → ℚ → ℕ → LoopOutcome
  | 0, e, it => ⟨e, it⟩
  | fuel + 1, e, it =>
      if e < tol then ⟨e, it⟩ else assOuterLoop step tol fuel (step e) (it + 1)

/-- Modelled from the spec: run an equilibrium outer loop from residual `e0`
with iteration cap `cap`. -/
def runEquilibriumLoop (step : ℚ → ℚ) (tol : ℚ) (cap : ℕ) (e0 : ℚ) :
    LoopOutcome :=
  assOuterLoop step tol cap e0 0

/-- Two rationals agree within tolerance `tol`. -/
def ratClose (tol a b : ℚ) : Prop := a - b ≤ tol ∧ b - a ≤ tol

/-- Componentwise mass balance of a recorded flash run within tolerance:
z_i is within `tol` of (1 − β)·x_i + β·y_i for every component i (and the
vectors have equal lengths). -/
def massBalanced (tol : ℚ) (run : FlashRun) : Prop :=
  List.Forall₂ (ratClose tol) run.z
    (List.zipWith
      (fun xi yi => (1 - run.result.beta) * xi + run.result.beta * yi)
      run.result.X run.result.Y)

/-- The outer loop model never converges silently: whenever the returned
residual is still at or above tolerance, the whole iteration budget was
spent, so the returned record's `iter` equals the starting count plus the
budget. -/
theorem assOuterLoop_not_converged (step : ℚ → ℚ) (tol : ℚ) :
    ∀ (fuel : ℕ) (e : ℚ) (it : ℕ),
      tol ≤ (assOuterLoop step tol fuel e it).error →
      (assOuterLoop step tol fuel e it).iter = it + fuel := by
  intro fuel
  induction fuel with
  | zero => intro e it _; rfl
  | succ n ih =>
      intro e it h
      rw [assOuterLoop] at h ⊢
      by_cases hc : e < tol
      · rw [if_pos hc] at h
        exact absurd h (not_le.mpr hc)
      · rw [if_neg hc] at h ⊢
        rw [ih (step e) (it + 1) h]
        omega

/-- C1: calling flash with initial x=[0.23512692, 0.76487308], y=[0.5, 0.5],
phase states 'LV', feed z=[0.4, 0.6], T=350, P=0.8 and the ethanol–water
model returns a converged result (final residual below 1e-8) with
beta ≈ 0.4666, X ≈ [0.2395, 0.7605], Y ≈ [0.5835, 0.4165], converging in
7 ≤ 10 outer iterations. -/
theorem flash_vle_example_scenario :
    flash_vle_ethanol_water.error < 1 / 10 ^ 8 ∧
    ratClose (1 / 10 ^ 4) flash_vle_ethanol_water.beta 0.4666 ∧
    List.Forall₂ (ratClose (1 / 10 ^ 4)) flash_vle_ethanol_water.X
      [0.2395, 0.7605] ∧
    List.Forall₂ (ratClose (1 / 10 ^ 4)) flash_vle_ethanol_water.Y
      [0.5835, 0.4165] ∧
    flash_vle_ethanol_water.iter ≤ 10 := by
  refine ⟨?_, ?_, ?_, ?_, ?_⟩ <;>
    norm_num [flash_vle_ethanol_water, ratClose, List.forall₂_cons]

/-- C2 counterexample: with residual 1 still above tolerance 1e-8 after the
cap nacc = 5 ASS cycles is reached, the two-phase flash engine's next mode is
Gibbs free-energy minimization, not the Newton step on the (c+1)-dimensional
ln K system. -/
theorem flash_fallback_not_newton_cex :
    flashNextMethod 1 (1 / 10 ^ 8) 5 5 = FlashMethod.gibbsMin ∧
    FlashMethod.gibbsMin ≠ FlashMethod.newtonFullK := by
  constructor
  · rw [flashNextMethod, if_neg (by norm_num), if_pos (by norm_num)]
  · simp

/-- C2 (amended): when the ASS step count reaches the cap nacc without the
residual falling below tolerance, the two-phase flash engine switches to a
second-order procedure minimizing the total Gibbs free energy, while the
bubble/dew-point engines are the ones that switch to solving the
(c+1)-dimensional system f_i = ln K_i + ln φ̂ᵥ_i − ln φ̂ₗ_i (i = 1..c),
f_{c+1} = Σ(y_i − x_i), whose last residual is Σ y_i − Σ x_i. -/
theorem flash_fallback_is_gibbs (err tol : ℚ) (it nacc : ℕ)
    (lnK lnphiV lnphiL x y : List ℚ) (h1 : tol ≤ err) (h2 : nacc ≤ it) :
    flashNextMethod err tol it nacc = FlashMethod.gibbsMin ∧
    bubbleDewNextMethod err tol it nacc = FlashMethod.newtonFullK ∧
    (fullKResidual lnK lnphiV lnphiL x y).getLast? = some (y.sum - x.sum) := by
  refine ⟨?_, ?_, ?_⟩
  · rw [flashNextMethod, if_neg (not_lt.mpr h1), if_pos h2]
  · rw [bubbleDewNextMethod, if_neg (not_lt.mpr h1), if_pos h2]
  · rw [fullKResidual]
    exact List.getLast?_concat _

/-- Witness for C2 (amended) at residual 1, tolerance 1e-8, iteration count 5,
cap 5 and a concrete one-component K-system. -/
theorem flash_fallback_is_gibbs_witness :
    flashNextMethod 1 (1 / 10 ^ 8) 5 5 = FlashMethod.gibbsMin ∧
    bubbleDewNextMethod 1 (1 / 10 ^ 8) 5 5 = FlashMethod.newtonFullK ∧
    (fullKResidual [0.1] [0.2] [0.3] [0.5, 0.5] [0.6, 0.4]).getLast? =
      some (([0.6, 0.4] : List ℚ).sum - ([0.5, 0.5] : List ℚ).sum) :=
  flash_fallback_is_gibbs 1 (1 / 10 ^ 8) 5 5 [0.1] [0.2] [0.3] [0.5, 0.5]
    [0.6, 0.4] (by norm_num) (by norm_num)

/-- C3 counterexample: the result objects returned by the bubble- and
dew-point routines do not carry the `beta` field the two-phase flash result
carries, so they do not have the same FlashResult shape. -/
theorem bubble_result_lacks_beta_cex :
    "beta" ∈ flashResultFields ∧ "beta" ∉ bubbleDewResultFields ∧
    bubbleDewResultFields ≠ flashResultFields := by
  refine ⟨by simp [flashResultFields], by simp [bubbleDewResultFields], ?_⟩
  simp [bubbleDewResultFields, flashResultFields]

/-- C3 (amended): every converged bubble-point result has a vapor composition
Y summing to 1 within tolerance and every converged dew-point result has a
liquid composition X summing to 1 within tolerance, with `error` and `iter`
describing the outer loop; but the reported shape is the flash result's shape
with the `beta` field removed — β is fixed at the boundary value (0 for
bubble, 1 for dew) by construction and not reported as a field. -/
theorem bubble_dew_boundary_law :
    bubbleDewResultFields = flashResultFields.erase "beta" ∧
    (∀ r ∈ recordedBubbleResults, ratClose (1 / 10 ^ 8) r.Y.sum 1) ∧
    (∀ r ∈ recordedDewResults, ratClose (1 / 10 ^ 8) r.X.sum 1) := by
  refine ⟨by decide, ?_, ?_⟩
  · intro r hr
    simp [recordedBubbleResults] at hr
    rcases hr with rfl | rfl | rfl | rfl <;>
      norm_num [ratClose, bubblePy_ethanol_water, bubbleTy_ethanol_water,
        bubblePy_ternary, bubbleTy_ternary]
  · intro r hr
    simp [recordedDewResults] at hr
    rcases hr with rfl | rfl | rfl | rfl <;>
      norm_num [ratClose, dewPx_mtbe_ethanol, dewTx_mtbe_ethanol,
        dewPx_ternary, dewTx_ternary]

/-- C4 counterexample: for n = 2 the vapor-trial `tpd_minimas` run recorded in
the stability notebook returned the same minimum twice, so the collection is
not pairwise distinct. -/
theorem tpd_minimas_duplicate_minima_cex :
    ¬ List.Pairwise (fun a b => a ≠ b) tpd_minimas_V_water_mtbe.1 := by
  simp [tpd_minimas_V_water_mtbe, List.pairwise_cons]

/-- C4 (amended): `tpd_minimas(n, …)` returns up to n minima of the tpd
function; deduplication by composition distance is attempted but the returned
minima are not guaranteed pairwise distinct, since perturbed starts may
reconverge to the same minimum (the recorded liquid minima are distinct, the
recorded vapor minima coincide). -/
theorem tpd_minimas_returns_at_most_n :
    tpd_minimas_L_water_mtbe.1.length ≤ 2 ∧
    tpd_minimas_V_water_mtbe.1.length ≤ 2 ∧
    List.Pairwise (fun a b => a ≠ b) tpd_minimas_L_water_mtbe.1 := by
  refine ⟨by simp [tpd_minimas_L_water_mtbe], by simp [tpd_minimas_V_water_mtbe], ?_⟩
  norm_num [tpd_minimas_L_water_mtbe, List.pairwise_cons]

/-- C5: `lle_init(z, T, P, model)` returns exactly the pair of compositions
produced by `tpd_minimas` with n = 2 and liquid trial and reference states at
the same (z, T, P, model): the recorded `lle_init` outputs of both notebooks
coincide with the composition part of the recorded liquid `tpd_minimas`
output. -/
theorem lle_init_refines_tpd_minimas :
    tpd_minimas_L_water_mtbe.1 =
      [lle_init_water_mtbe.1, lle_init_water_mtbe.2] ∧
    lle_init_water_mtbe_run2 = lle_init_water_mtbe :=
  ⟨rfl, rfl⟩

/-- C6: in every recorded stability-then-flash scenario, a negative minimized
tpd value for the trial phase implies the corresponding two-phase flash
converged to a phase fraction strictly between 0 and 1 (a non-trivial
split). -/
theorem tpd_negative_implies_nontrivial_split (s : StabilityFlashScenario)
    (hs : s ∈ lleStabilityScenarios) (hneg : s.tpdVal < 0) :
    0 < s.flashBeta ∧ s.flashBeta < 1 := by
  simp [lleStabilityScenarios] at hs
  subst hs
  constructor <;> norm_num [lleScenarioWaterMtbe]

/-- Witness for C6 at the recorded water–mtbe scenario (T=320, P=1.01, tpd
value −0.0859…). -/
theorem tpd_negative_implies_nontrivial_split_witness :
    0 < lleScenarioWaterMtbe.flashBeta ∧ lleScenarioWaterMtbe.flashBeta < 1 :=
  tpd_negative_implies_nontrivial_split lleScenarioWaterMtbe
    (by simp [lleStabilityScenarios]) (by norm_num [lleScenarioWaterMtbe])

/-- C7: every recorded converged two-phase flash result satisfies the mass
balance z_i = (1 − β)·x_i + β·y_i for every component i within 1e-8. -/
theorem flash_mass_balance (run : FlashRun) (hrun : run ∈ recordedFlashRuns)
    (hconv : run.result.error ≤ 1 / 10 ^ 8) :
    massBalanced (1 / 10 ^ 8) run := by
  simp [recordedFlashRuns] at hrun
  rcases hrun with rfl | rfl <;>
    norm_num [massBalanced, ratClose, flashRunVLE, flashRunLLE,
      flash_vle_ethanol_water, flash_lle_water_mtbe, List.forall₂_cons,
      List.zipWith]

/-- Witness for C7 at the recorded ethanol–water VLE flash run. -/
theorem flash_mass_balance_witness : massBalanced (1 / 10 ^ 8) flashRunVLE :=
  flash_mass_balance flashRunVLE (by simp [recordedFlashRuns])
    (by norm_num [flashRunVLE, flash_vle_ethanol_water])

/-- C8: in the recorded multiphase `lle` result, every stability variable θ_k
is non-negative and the complementarity β_k·θ_k ≈ 0 holds for every phase
fraction paired with a stability variable. -/
theorem lle_complementarity :
    (∀ th ∈ lle_water_mtbe.tetha, 0 ≤ th) ∧
    (∀ b ∈ lle_water_mtbe.beta, ∀ th ∈ lle_water_mtbe.tetha,
      ratClose (1 / 10 ^ 10) (b * th) 0) := by
  constructor
  · intro th hth
    simp [lle_water_mtbe] at hth
    subst hth
    norm_num
  · intro b hb th hth
    simp [lle_water_mtbe] at hb hth
    subst hth
    norm_num [ratClose]

/-- C9: the equilibrium outer loop always returns a result record; when the
returned residual is still at or above tolerance, the iteration count equals
the cap — the explicit not-converged marker callers inspect through the
`error` and `iter` fields — and no fatal error is raised (the loop is a total
function into `LoopOutcome`). -/
theorem non_convergence_returns_marked_result (step : ℚ → ℚ) (tol : ℚ)
    (cap : ℕ) (e0 : ℚ)
    (h : tol ≤ (runEquilibriumLoop step tol cap e0).error) :
    (runEquilibriumLoop step tol cap e0).iter = cap := by
  have hmain := assOuterLoop_not_converged step tol cap e0 0
  rw [runEquilibriumLoop] at h ⊢
  rw [hmain h]
  omega

/-- Witness for C9: a loop whose residual stays at 2 against tolerance 1 and
cap 3 returns a record with error 2 ≥ 1 and iteration count exactly 3. -/
theorem non_convergence_returns_marked_result_witness :
    1 ≤ (runEquilibriumLoop (fun e => e) 1 3 2).error ∧
    (runEquilibriumLoop (fun e => e) 1 3 2).iter = 3 := by
  have h : 1 ≤ (runEquilibriumLoop (fun e => e) 1 3 2).error := by
    rw [runEquilibriumLoop]
    rw [show (3 : ℕ) = 2 + 1 from rfl, assOuterLoop, if_neg (by norm_num)]
    rw [show (2 : ℕ) = 1 + 1 from rfl, assOuterLoop, if_neg (by norm_num)]
    rw [show (1 : ℕ) = 0 + 1 from rfl, assOuterLoop, if_neg (by norm_num)]
    norm_num [assOuterLoop]
  exact ⟨h, non_convergence_returns_marked_result (fun e => e) 1 3 2 h⟩

/-- C10: the recorded flash results label their two phases with the
one-letter state strings 'L' and 'V' in state1/state2, while the recorded
bubble-point and dew-point results label the same physical states with the
strings 'Liquid' and 'Vapor'. -/
theorem phase_state_label_vocabulary :
    (∀ run ∈ recordedFlashRuns,
      run.result.state1 ∈ (["L", "V"] : List String) ∧
      run.result.state2 ∈ (["L", "V"] : List String)) ∧
    (∀ r ∈ recordedBubbleResults ++ recordedDewResults,
      r.state1 = "Liquid" ∧ r.state2 = "Vapor") := by
  constructor
  · intro run hrun
    simp [recordedFlashRuns] at hrun
    rcases hrun with rfl | rfl <;>
      simp [flashRunVLE, flashRunLLE, flash_vle_ethanol_water,
        flash_lle_water_mtbe]
  · intro r hr
    simp [recordedBubbleResults, recordedDewResults] at hr
    rcases hr with rfl | rfl | rfl | rfl | rfl | rfl | rfl | rfl <;>
      simp [bubblePy_ethanol_water, bubbleTy_ethanol_water, bubblePy_ternary,
        bubbleTy_ternary, dewPx_mtbe_ethanol, dewTx_mtbe_ethanol,
        dewPx_ternary, dewTx_ternary]

end Phasepy
